import Mathlib

/-
  Shallow embedding of the LYRARO voice server (Twilio <-> OpenAI Realtime
  bridge).  The repository contains five near-duplicate implementations of
  the same per-call bridge; the claims cite four of them:

  * `Part002`   — src/unnamed/part_002 (behaviourally identical to the first
                  variant of src/unnamed/part_000): the AI socket is created
                  lazily by `connectOpenAI()` on each start frame, the ready
                  flag `sessionReady` is set on the `session.updated` event,
                  and the greeting is injected at that transition.
  * `ServerJs`  — src/server.js: the AI socket is created eagerly when the
                  telephony socket connects; `openaiReady` is set on the AI
                  socket's `open` event, where the session configuration and
                  the greeting are also sent; `session.updated` is never
                  inspected.
  * `Part001`   — src/unnamed/part_001: no credential check on connection and
                  each physical AI message is parsed as a single JSON event.
  * `Part000v2` — the second variant inside src/unnamed/part_000 (after the
                  first listing): its telephony message handler calls
                  JSON.parse with no surrounding try/catch.

  Modelling conventions: each per-call closure becomes a state structure; the
  ws event callbacks become a `step` function over an inbound event type
  `Ev`; everything a handler sends or does to a socket is recorded in a list
  of `Out` actions.  `JSON.parse` of an AI-service line is modelled by an
  abstract parameter `parse : String → Option AIEvent` (`none` = the parse
  throws); telephony frames arrive already parsed as `Option TwilioData`
  (`none` = unparseable).  JS string truthiness is `jsTruthy`.  JS
  `String.prototype.split('\n')` and `trim()` are modelled character-wise by
  `splitNl` and `trimStr` so that they evaluate inside the kernel.
  `console.log` / `console.error` calls are elided: logging is out of scope
  and no claim inspects log lines.  The payload of the `session.update`
  configuration event is likewise elided (no claim inspects its fields).
-/

/-- WebSocket readyState: CONNECTING / OPEN / CLOSING / CLOSED. -/
inductive SockState
  | connecting
  | opened
  | closing
  | closed
deriving DecidableEq, BEq

/-- JS truthiness of a possibly-absent string: `undefined`, `null` and the
empty string are falsy. -/
def jsTruthy : Option String → Bool
  | none => false
  | some s => s != ""

/-- Model of `ws && ws.readyState === WebSocket.OPEN` for a lazily created
socket. -/
def sockIsOpen : Option SockState → Bool
  | some SockState.opened => true
  | _ => false

/-- Model of JS `text.split('\n')` on the character list: split on every
newline, keeping empty segments. -/
def splitNlAux (cur : List Char) : List Char → List (List Char)
  | [] => [cur.reverse]
  | c :: cs =>
    if c == '\n' then cur.reverse :: splitNlAux [] cs
    else splitNlAux (c :: cur) cs

/-- JS `text.split('\n')`. -/
def splitNl (s : String) : List String :=
  (splitNlAux [] s.toList).map (fun l => String.mk l)

/-- JS `s.trim()`: drop whitespace from both ends. -/
def trimStr (s : String) : String :=
  String.mk (((s.toList.dropWhile Char.isWhitespace).reverse.dropWhile
    Char.isWhitespace).reverse)

/-- Model of `greeting && greeting.trim().length > 0`, the guard the
variants use
before injecting the greeting. -/
def gNonempty (g : String) : Bool := g != "" && (trimStr g).length > 0

/-- The `data.start` sub-object of a Twilio frame. -/
structure StartData where
  streamSid : Option String
deriving DecidableEq, BEq

/-- The `data.media` sub-object of a Twilio frame. -/
structure MediaData where
  payload : Option String
deriving DecidableEq, BEq

/-- A parsed inbound Twilio frame: `{event, start?, media?}`.  Absent
sub-objects are `none`. -/
structure TwilioData where
  event : String
  start : Option StartData
  media : Option MediaData
deriving DecidableEq, BEq

/-- A parsed inbound OpenAI Realtime event: `{type, delta?}` (`ty` stands for
the JSON field `type`). -/
structure AIEvent where
  ty : String
  delta : Option String
deriving DecidableEq, BEq

/-- Events the bridge sends to the AI socket.  The `session.update`
configuration payload (voice, formats, instructions, ...) is not inspected
by any claim and is elided. -/
inductive AiEvtOut
  | sessionUpdate
  | itemCreate (text : String)
  | responseCreate
  | append (audio : String)
deriving DecidableEq, BEq

/-- Observable actions of a per-call handler: sends on either socket, close
calls, and creation of a new AI-side WebSocket (`connectOpenAI`). -/
inductive Out
  | aiSend (e : AiEvtOut)
  | twilioSend (streamSid : String) (payload : String)
  | closeAi
  | closeTwilio
  | openAiSocket
deriving DecidableEq, BEq

/-- Inbound stimuli delivered to one call's handlers by the event loop. -/
inductive Ev
  | twMsg (d : Option TwilioData)
  | twClose
  | twError
  | aiOpen
  | aiMsg (text : String)
  | aiClose
  | aiError
deriving DecidableEq, BEq

/-- The `input_audio_buffer.append` payloads among a list of actions. -/
def appends (outs : List Out) : List String :=
  outs.filterMap (fun o => match o with
    | Out.aiSend (AiEvtOut.append a) => some a
    | _ => none)

/-- The texts of the `conversation.item.create` events among a list of
actions. -/
def itemTexts (outs : List Out) : List String :=
  outs.filterMap (fun o => match o with
    | Out.aiSend (AiEvtOut.itemCreate t) => some t
    | _ => none)

/-- Number of `response.create` events among a list of actions. -/
def respCount (outs : List Out) : Nat :=
  outs.countP (fun o => o == Out.aiSend AiEvtOut.responseCreate)

/-- A trace that contains no inbound AI-socket message at all (so in
particular no session-updated event was ever observed). -/
def noAiMsg (evs : List Ev) : Bool :=
  evs.all (fun e => match e with
    | Ev.aiMsg _ => false
    | _ => true)

/-- Outcome of the `wss.on('connection')` prelude: whether an AI-side
WebSocket gets created and whether the telephony socket is closed right
away. -/
structure ConnOutcome where
  aiSocketCreated : Bool
  twilioClosed : Bool
deriving DecidableEq, BEq

namespace Part002

/-- The per-call closure of src/unnamed/part_002 (= part_000 first variant):
`streamSid`, the lazily created `openaiWs` (readyState of the most recently
created AI socket, `none` before any `connectOpenAI()`), `sessionReady`, the
telephony socket's readyState, and a ghost counter of how many AI sockets
`connectOpenAI()` has created for this call. -/
structure St where
  streamSid : Option String
  openaiWs : Option SockState
  sessionReady : Bool
  twilioRS : SockState
  socketsOpened : Nat
deriving DecidableEq, BEq

/-- State right after `wss.on('connection')` accepted the call. -/
def init : St :=
  { streamSid := none, openaiWs := none, sessionReady := false,
    twilioRS := SockState.opened, socketsOpened := 0 }

/-- part_002 line splitter: `text.split('\n').map(trim).filter(len>0)`. -/
def splitLines (text : String) : List String :=
  ((splitNl text).map trimStr).filter (fun l => l.length > 0)

/-- First branch of the event loop: `session.created` → send the
session.update configuration. -/
def createdOut (ev : AIEvent) : List Out :=
  if ev.ty == "session.created" then [Out.aiSend AiEvtOut.sessionUpdate]
  else []

/-- Second branch, state part: `session.updated` → `sessionReady = true`. -/
def updState (st : St) (ev : AIEvent) : St :=
  if ev.ty == "session.updated" then { st with sessionReady := true } else st

/-- Second branch, output part: on `session.updated` with a non-empty
greeting, send conversation.item.create carrying the greeting text, then
response.create. -/
def greetOut (greeting : String) (ev : AIEvent) : List Out :=
  if ev.ty == "session.updated" then
    if gNonempty greeting then
      [Out.aiSend (AiEvtOut.itemCreate greeting),
       Out.aiSend AiEvtOut.responseCreate]
    else []
  else []

/-- Third branch: an audio delta (either accepted spelling) with a truthy
delta, a truthy streamSid and an open telephony socket is forwarded as a
Twilio media frame. -/
def deltaOut (st : St) (ev : AIEvent) : List Out :=
  if (ev.ty == "response.audio.delta"
        || ev.ty == "response.output_audio.delta")
      && jsTruthy ev.delta && jsTruthy st.streamSid
      && (st.twilioRS == SockState.opened) then
    [Out.twilioSend (st.streamSid.getD "") (ev.delta.getD "")]
  else []

/-- Dispatch of one parsed OpenAI event (the body of the `for` loop in
`openaiWs.on('message')`, whose branches are the three definitions above;
the fourth branch, `error`, only logs). -/
def dispatch (greeting : String) (st : St) (ev : AIEvent) : St × List Out :=
  (updState st ev, createdOut ev ++ greetOut greeting ev ++ deltaOut st ev)

/-- The per-line loop of `openaiWs.on('message')`: parse each line, on a
parse failure log and `continue`, otherwise dispatch. -/
def runLines (parse : String → Option AIEvent) (greeting : String) :
    St → List String → St × List Out
  | st, [] => (st, [])
  | st, l :: ls =>
    match parse l with
    | none => runLines parse greeting st ls
    | some ev =>
      let p := dispatch greeting st ev
      let q := runLines parse greeting p.1 ls
      (q.1, p.2 ++ q.2)

/-- Handler `openaiWs.on('message')`: split the physical message into trimmed
non-blank lines and run the per-line loop. -/
def onAiMessage (parse : String → Option AIEvent) (greeting : String)
    (st : St) (text : String) : St × List Out :=
  runLines parse greeting st (splitLines text)

/-- The stop-frame teardown: close the AI socket if open, then the telephony
socket if open (the first close only touches the AI handle, so the two
sequential source-level ifs are rendered as nested ifs). -/
def closeBoth (st : St) : St × List Out :=
  if sockIsOpen st.openaiWs then
    if st.twilioRS == SockState.opened then
      ({ st with openaiWs := some SockState.closing,
                 twilioRS := SockState.closing },
       [Out.closeAi, Out.closeTwilio])
    else ({ st with openaiWs := some SockState.closing }, [Out.closeAi])
  else
    if st.twilioRS == SockState.opened then
      ({ st with twilioRS := SockState.closing }, [Out.closeTwilio])
    else (st, [])

/-- Handler `twilioWs.on('message')`: `none` = JSON.parse failed (log, return);
start → capture streamSid and call `connectOpenAI()` (unconditionally);
media → forward to the AI socket only when it is open and `sessionReady`,
and only when `data.media` and `data.media.payload` are truthy;
stop → close both sockets; anything else ignored. -/
def onTwilioMessage (st : St) (d : Option TwilioData) : St × List Out :=
  match d with
  | none => (st, [])
  | some data =>
    if data.event == "start" then
      ({ st with streamSid := data.start.bind (fun s => s.streamSid),
                 openaiWs := some SockState.connecting,
                 socketsOpened := st.socketsOpened + 1 },
       [Out.openAiSocket])
    else if data.event == "media" && sockIsOpen st.openaiWs
        && st.sessionReady then
      match data.media with
      | none => (st, [])
      | some m =>
        if jsTruthy m.payload then
          (st, [Out.aiSend (AiEvtOut.append (m.payload.getD ""))])
        else (st, [])
    else if data.event == "stop" then closeBoth st
    else (st, [])

/-- One step of the per-call machine: route an inbound stimulus to the
handler part_002 registers for it.  `aiOpen` only logs (the readyState
moves to OPEN); `aiClose` and `aiError` only log — in particular `aiClose`
does not touch the telephony socket.  AI-socket stimuli are ignored while no
AI socket exists. -/
def step (parse : String → Option AIEvent) (greeting : String) (st : St) :
    Ev → St × List Out
  | Ev.twMsg d => onTwilioMessage st d
  | Ev.twClose =>
    if sockIsOpen st.openaiWs then
      ({ st with twilioRS := SockState.closed,
                 openaiWs := some SockState.closing }, [Out.closeAi])
    else ({ st with twilioRS := SockState.closed }, [])
  | Ev.twError =>
    if sockIsOpen st.openaiWs then
      ({ st with openaiWs := some SockState.closing }, [Out.closeAi])
    else (st, [])
  | Ev.aiOpen =>
    ({ st with openaiWs := st.openaiWs.map (fun _ => SockState.opened) }, [])
  | Ev.aiMsg text =>
    match st.openaiWs with
    | none => (st, [])
    | some _ => onAiMessage parse greeting st text
  | Ev.aiClose =>
    ({ st with openaiWs := st.openaiWs.map (fun _ => SockState.closed) }, [])
  | Ev.aiError => (st, [])

/-- Run a whole interleaving of stimuli, collecting every action. -/
def run (parse : String → Option AIEvent) (greeting : String) :
    St → List Ev → St × List Out
  | st, [] => (st, [])
  | st, e :: es =>
    let p := step parse greeting st e
    let q := run parse greeting p.1 es
    (q.1, p.2 ++ q.2)

/-- An AI-socket stimulus is realizable only when an AI socket exists. -/
def evOk (st : St) : Ev → Bool
  | Ev.aiOpen => st.openaiWs.isSome
  | Ev.aiMsg _ => st.openaiWs.isSome
  | Ev.aiClose => st.openaiWs.isSome
  | Ev.aiError => st.openaiWs.isSome
  | _ => true

/-- A trace is realizable from a state when every AI-socket stimulus happens
while an AI socket exists. -/
def valid (parse : String → Option AIEvent) (greeting : String) :
    St → List Ev → Bool
  | _, [] => true
  | st, e :: es =>
    evOk st e && valid parse greeting (step parse greeting st e).1 es

/-- Is this parsed AI event a session-updated event? -/
def updP (e : AIEvent) : Bool := e.ty == "session.updated"

/-- Number of session-updated events among the parseable lines of one
physical AI message. -/
def msgUpdCount (parse : String → Option AIEvent) (text : String) : Nat :=
  ((splitLines text).filterMap parse).countP updP

/-- Number of session-updated events delivered across a trace. -/
def traceUpdCount (parse : String → Option AIEvent) : List Ev → Nat
  | [] => 0
  | Ev.aiMsg t :: es => msgUpdCount parse t + traceUpdCount parse es
  | _ :: es => traceUpdCount parse es

end Part002

namespace ServerJs

/-- The per-call closure of src/server.js: the AI socket is created eagerly
at connection time (readyState starts CONNECTING); `openaiReady` is the flag
set on the socket's `open` event. -/
structure St where
  streamSid : Option String
  openaiRS : SockState
  openaiReady : Bool
  twilioRS : SockState
deriving DecidableEq, BEq

/-- State right after `wss.on('connection')` (with the credential present):
AI socket just created, still connecting. -/
def init : St :=
  { streamSid := none, openaiRS := SockState.connecting,
    openaiReady := false, twilioRS := SockState.opened }

/-- Model of `sendOpenAIEvent`: send only when the AI socket is OPEN, else a
silent no-op. -/
def sendOpenAIEvent (st : St) (e : AiEvtOut) : List Out :=
  if st.openaiRS == SockState.opened then [Out.aiSend e] else []

/-- server.js line splitter:
`text.split('\n').filter(l => l.trim().length > 0)` — the line itself is
parsed untrimmed. -/
def splitLines (text : String) : List String :=
  (splitNl text).filter (fun l => (trimStr l).length > 0)

/-- Dispatch of one parsed OpenAI event in server.js: only the audio-delta
spellings produce an action (forwarding the media frame when the delta and
streamSid are truthy and the telephony socket is open); `error` events are
only logged; no session.created / session.updated handling exists.  No
per-call state is mutated. -/
def dispatch (st : St) (ev : AIEvent) : List Out :=
  if ev.ty == "response.output_audio.delta"
      || ev.ty == "response.audio.delta" then
    if jsTruthy ev.delta then
      if jsTruthy st.streamSid then
        if st.twilioRS == SockState.opened then
          [Out.twilioSend (st.streamSid.getD "") (ev.delta.getD "")]
        else []
      else []
    else []
  else []

/-- The per-line loop of server.js `openaiWs.on('message')`: parse failures
are logged and skipped with `continue`. -/
def runLines (parse : String → Option AIEvent) (st : St) :
    List String → List Out
  | [] => []
  | l :: ls =>
    match parse l with
    | none => runLines parse st ls
    | some ev => dispatch st ev ++ runLines parse st ls

/-- server.js `openaiWs.on('message')`. -/
def onAiMessage (parse : String → Option AIEvent) (st : St)
    (text : String) : List Out :=
  runLines parse st (splitLines text)

/-- The stop-frame teardown of server.js (same sequential two ifs as in
part_002, rendered as nested ifs). -/
def closeBoth (st : St) : St × List Out :=
  if st.openaiRS == SockState.opened then
    if st.twilioRS == SockState.opened then
      ({ st with openaiRS := SockState.closing,
                 twilioRS := SockState.closing },
       [Out.closeAi, Out.closeTwilio])
    else ({ st with openaiRS := SockState.closing }, [Out.closeAi])
  else
    if st.twilioRS == SockState.opened then
      ({ st with twilioRS := SockState.closing }, [Out.closeTwilio])
    else (st, [])

/-- server.js `twilioWs.on('message')` switch: start → capture streamSid;
media → forward only when `openaiReady` and the AI socket is OPEN, and the
frame carries a truthy `media.payload`; mark → ignored; stop → close both;
unknown events ignored; `none` = JSON.parse failed (log + return). -/
def onTwilioMessage (st : St) (d : Option TwilioData) : St × List Out :=
  match d with
  | none => (st, [])
  | some data =>
    if data.event == "start" then
      ({ st with streamSid := data.start.bind (fun s => s.streamSid) }, [])
    else if data.event == "media" then
      if !st.openaiReady || !(st.openaiRS == SockState.opened) then (st, [])
      else
        match data.media with
        | none => (st, [])
        | some m =>
          if jsTruthy m.payload then
            (st, sendOpenAIEvent st (AiEvtOut.append (m.payload.getD "")))
          else (st, [])
    else if data.event == "stop" then closeBoth st
    else (st, [])

/-- One step of the server.js per-call machine.  On the AI socket's `open`
event the code sets `openaiReady`, sends the session configuration, and —
for a non-empty greeting — immediately sends conversation.item.create and
response.create (without waiting for any session.updated).  `aiClose`
closes the telephony socket; `twClose` / `twError` close the AI socket. -/
def step (parse : String → Option AIEvent) (greeting : String) (st : St) :
    Ev → St × List Out
  | Ev.aiOpen =>
    let st1 := { st with openaiRS := SockState.opened, openaiReady := true }
    (st1, sendOpenAIEvent st1 AiEvtOut.sessionUpdate ++
      (if gNonempty greeting then
        sendOpenAIEvent st1 (AiEvtOut.itemCreate greeting) ++
          sendOpenAIEvent st1 AiEvtOut.responseCreate
      else []))
  | Ev.aiMsg text => (st, onAiMessage parse st text)
  | Ev.aiClose =>
    let st1 := { st with openaiRS := SockState.closed }
    if st1.twilioRS == SockState.opened then
      ({ st1 with twilioRS := SockState.closing }, [Out.closeTwilio])
    else (st1, [])
  | Ev.aiError => (st, [])
  | Ev.twMsg d => onTwilioMessage st d
  | Ev.twClose =>
    let st1 := { st with twilioRS := SockState.closed }
    if st1.openaiRS == SockState.opened then
      ({ st1 with openaiRS := SockState.closing }, [Out.closeAi])
    else (st1, [])
  | Ev.twError =>
    if st.openaiRS == SockState.opened then
      ({ st with openaiRS := SockState.closing }, [Out.closeAi])
    else (st, [])

/-- Run a whole interleaving of stimuli for a server.js call. -/
def run (parse : String → Option AIEvent) (greeting : String) :
    St → List Ev → St × List Out
  | st, [] => (st, [])
  | st, e :: es =>
    let p := step parse greeting st e
    let q := run parse greeting p.1 es
    (q.1, p.2 ++ q.2)

/-- server.js `wss.on('connection')` prelude: with no OPENAI_API_KEY the
telephony socket is closed at once and no AI socket is created; otherwise
the AI socket is created. -/
def connection (hasKey : Bool) : ConnOutcome :=
  if hasKey then { aiSocketCreated := true, twilioClosed := false }
  else { aiSocketCreated := false, twilioClosed := true }

end ServerJs

namespace Part001

/-- The slice of src/unnamed/part_001's per-call closure that its AI-side
message handler reads: only `streamSid`. -/
structure St where
  streamSid : Option String
deriving DecidableEq, BEq

/-- part_001 `openaiWs.on('message')`: the WHOLE physical message is parsed
as a single JSON event inside a try/catch (no newline splitting); a parse
failure is logged and dropped; a `response.audio.delta` with truthy delta
and known streamSid is forwarded; everything else only logs. -/
def onAiMessage (parse : String → Option AIEvent) (st : St)
    (text : String) : St × List Out :=
  match parse text with
  | none => (st, [])
  | some ev =>
    if ev.ty == "response.audio.delta" && jsTruthy ev.delta
        && jsTruthy st.streamSid then
      (st, [Out.twilioSend (st.streamSid.getD "") (ev.delta.getD "")])
    else (st, [])

/-- part_001 `wss.on('connection')` prelude: there is no OPENAI_API_KEY
check at all — the AI socket is created unconditionally (its Authorization
header carrying `Bearer undefined` when the key is absent) and the telephony
socket is left open. -/
def connection (_hasKey : Bool) : ConnOutcome :=
  { aiSocketCreated := true, twilioClosed := false }

end Part001

namespace Part000v2

/-- The per-call closure of the second variant in src/unnamed/part_000: the
AI socket is created eagerly at connection time. -/
structure St where
  streamSid : Option String
  openaiRS : SockState
  twilioRS : SockState
deriving DecidableEq, BEq

/-- State right after the connection is accepted. -/
def init : St :=
  { streamSid := none, openaiRS := SockState.connecting,
    twilioRS := SockState.opened }

/-- This variant's `twilioWs.on('message')` has NO try/catch: `JSON.parse`
of an unparseable frame throws a SyntaxError that escapes the handler
(modelled as `Except.error ()`), and `data.start.streamSid` /
`data.media.payload` are read without existence guards, so a start frame
without `start` or a media frame without `media` throws a TypeError. -/
def onTwilioMessage (st : St) (d : Option TwilioData) :
    Except Unit (St × List Out) :=
  match d with
  | none => Except.error ()
  | some data =>
    if data.event == "start" then
      match data.start with
      | none => Except.error ()
      | some s => Except.ok ({ st with streamSid := s.streamSid }, [])
    else if data.event == "media" && st.openaiRS == SockState.opened then
      match data.media with
      | none => Except.error ()
      | some m =>
        Except.ok (st, [Out.aiSend (AiEvtOut.append (m.payload.getD ""))])
    else if data.event == "stop" then
      if st.openaiRS == SockState.opened then
        Except.ok ({ st with openaiRS := SockState.closing }, [Out.closeAi])
      else Except.ok (st, [])
    else Except.ok (st, [])

end Part000v2

/-- Stand-in for `JSON.parse` on a fixed alphabet of physical AI-service
lines, used by the concrete witnesses and counterexamples.  JSON text itself
is not modelled: the handlers are parameterized by the parse function, and
this one maps each token to the event the real parse would produce — and,
like the real `JSON.parse`, fails on the newline-joined concatenation of two
events. -/
def parseFix : String → Option AIEvent
  | "created" => some { ty := "session.created", delta := none }
  | "updated" => some { ty := "session.updated", delta := none }
  | "deltaA" => some { ty := "response.audio.delta", delta := some "AAAA" }
  | "deltaB" => some { ty := "response.audio.delta", delta := some "BBBB" }
  | "deltaZ" =>
    some { ty := "response.output_audio.delta", delta := some "ZZZZ" }
  | _ => none

/-- A start frame carrying streamSid CA123. -/
def startCA : TwilioData :=
  { event := "start", start := some { streamSid := some "CA123" },
    media := none }

/-- A media frame carrying the given base64 payload. -/
def mediaFrame (p : String) : TwilioData :=
  { event := "media", start := none, media := some { payload := some p } }

/-- Interleaving used against the claim C1 on server.js: start frame, AI
socket opens, one caller media frame — no AI-service message (hence no
session-updated) is ever delivered. -/
def trC1cex : List Ev :=
  [Ev.twMsg (some startCA), Ev.aiOpen, Ev.twMsg (some (mediaFrame "AAA"))]

/-- Two start frames for the same call (duplicate start). -/
def trDupStart : List Ev := [Ev.twMsg (some startCA), Ev.twMsg (some startCA)]

/-- Start, AI socket opens, then the AI socket closes (service drop). -/
def trAiDrop : List Ev := [Ev.twMsg (some startCA), Ev.aiOpen, Ev.aiClose]

/-- Standard handshake trace: start, AI socket opens, one physical AI
message containing exactly one session-updated event. -/
def trHandshake : List Ev :=
  [Ev.twMsg (some startCA), Ev.aiOpen, Ev.aiMsg "updated"]

/-- A physical AI-service message batching two newline-delimited audio-delta
events. -/
def batchAB : String := "deltaA\ndeltaB"

/-- A part_001 call state whose streamSid is known. -/
def stP1 : Part001.St := { streamSid := some "CA123" }

/-- A server.js call state at full readiness, with streamSid known. -/
def stSrvReady : ServerJs.St :=
  { streamSid := some "CA123", openaiRS := SockState.opened,
    openaiReady := true, twilioRS := SockState.opened }

/-- A part_002 call state that has reached Ready with streamSid CA123. -/
def stReady : Part002.St :=
  { streamSid := some "CA123", openaiWs := some SockState.opened,
    sessionReady := true, twilioRS := SockState.opened, socketsOpened := 1 }

/-- A part_002 call state whose streamSid is not yet known. -/
def stNoSid : Part002.St :=
  { streamSid := none, openaiWs := some SockState.opened,
    sessionReady := true, twilioRS := SockState.opened, socketsOpened := 1 }

/-- A concrete audio-delta event with payload ZZZZ. -/
def evDeltaZ : AIEvent := { ty := "response.audio.delta", delta := some "ZZZZ" }

/-- A media frame whose envelope lacks the `media` object altogether. -/
def mediaNoPayload : TwilioData :=
  { event := "media", start := none, media := none }


/-- Helper: `appends` distributes over list concatenation. -/
theorem appends_append (a b : List Out) :
    appends (a ++ b) = appends a ++ appends b := by
  simp [appends]

/-- Helper: `itemTexts` distributes over list concatenation. -/
theorem itemTexts_append (a b : List Out) :
    itemTexts (a ++ b) = itemTexts a ++ itemTexts b := by
  simp [itemTexts]

/-- Helper: `respCount` is additive over list concatenation. -/
theorem respCount_append (a b : List Out) :
    respCount (a ++ b) = respCount a + respCount b := by
  simp [respCount, List.countP_append]

/-- Helper: the session.created branch emits no audio-append. -/
theorem appends_createdOut (ev : AIEvent) :
    appends (Part002.createdOut ev) = [] := by
  unfold Part002.createdOut
  split <;> rfl

/-- Helper: the greeting branch emits no audio-append. -/
theorem appends_greetOut (g : String) (ev : AIEvent) :
    appends (Part002.greetOut g ev) = [] := by
  unfold Part002.greetOut
  split
  · split <;> rfl
  · rfl

/-- Helper: the delta branch emits no audio-append. -/
theorem appends_deltaOut (st : Part002.St) (ev : AIEvent) :
    appends (Part002.deltaOut st ev) = [] := by
  unfold Part002.deltaOut
  split <;> rfl

/-- Helper: dispatching an inbound AI event never emits an audio-append. -/
theorem appends_dispatch (g : String) (st : Part002.St) (ev : AIEvent) :
    appends (Part002.dispatch g st ev).2 = [] := by
  simp [Part002.dispatch, appends_append, appends_createdOut,
    appends_greetOut, appends_deltaOut]

/-- Helper: the per-line AI message loop never emits an audio-append. -/
theorem appends_runLines (parse : String → Option AIEvent) (g : String) :
    ∀ (ls : List String) (st : Part002.St),
    appends (Part002.runLines parse g st ls).2 = [] := by
  intro ls
  induction ls with
  | nil => intro st; rfl
  | cons l ls ih =>
    intro st
    unfold Part002.runLines
    cases hp : parse l with
    | none => exact ih st
    | some ev =>
      simp only []
      rw [appends_append, appends_dispatch, ih]
      rfl

/-- Helper: dispatching an event that is not session-updated leaves the
ready flag as it was. -/
theorem updState_of_notUpd (st : Part002.St) (ev : AIEvent)
    (h : Part002.updP ev = false) : Part002.updState st ev = st := by
  unfold Part002.updState
  unfold Part002.updP at h
  simp [h]

/-- Helper: the per-line loop leaves the ready flag unchanged when none of
the parseable lines is a session-updated event. -/
theorem runLines_ready_of_noUpd (parse : String → Option AIEvent)
    (g : String) :
    ∀ (ls : List String) (st : Part002.St),
    (ls.filterMap parse).countP Part002.updP = 0 →
    (Part002.runLines parse g st ls).1.sessionReady = st.sessionReady := by
  intro ls
  induction ls with
  | nil => intro st _; rfl
  | cons l ls ih =>
    intro st h
    unfold Part002.runLines
    cases hp : parse l with
    | none =>
      rw [List.filterMap_cons, hp] at h
      exact ih st h
    | some ev =>
      rw [List.filterMap_cons, hp, List.countP_cons] at h
      have hev : Part002.updP ev = false := by
        by_cases hu : Part002.updP ev = true
        · simp [hu] at h
        · simpa using hu
      have hrest : (ls.filterMap parse).countP Part002.updP = 0 := by
        rw [hev] at h
        simpa using h
      simp only []
      rw [ih (Part002.dispatch g st ev).1 hrest]
      show (Part002.updState st ev).sessionReady = st.sessionReady
      rw [updState_of_notUpd st ev hev]

/-- Helper: the stop-frame teardown does not touch the ready flag. -/
theorem closeBoth_ready (st : Part002.St) :
    (Part002.closeBoth st).1.sessionReady = st.sessionReady := by
  unfold Part002.closeBoth
  split <;> split <;> rfl

/-- Helper: the stop-frame teardown emits no audio-append. -/
theorem appends_closeBoth (st : Part002.St) :
    appends (Part002.closeBoth st).2 = [] := by
  unfold Part002.closeBoth
  split <;> split <;> rfl

/-- Helper: the telephony message handler never touches the ready flag. -/
theorem tw_ready (st : Part002.St) (d : Option TwilioData) :
    (Part002.onTwilioMessage st d).1.sessionReady = st.sessionReady := by
  cases d with
  | none => rfl
  | some data =>
    unfold Part002.onTwilioMessage
    repeat' split
    all_goals first
      | rfl
      | exact closeBoth_ready st

/-- Helper: a telephony frame processed while the call is not Ready emits no
audio-append. -/
theorem tw_appends_of_notReady (st : Part002.St) (d : Option TwilioData)
    (hr : st.sessionReady = false) :
    appends (Part002.onTwilioMessage st d).2 = [] := by
  cases d with
  | none => rfl
  | some data =>
    unfold Part002.onTwilioMessage
    repeat' split
    all_goals first
      | rfl
      | exact appends_closeBoth st
      | simp_all

/-- Helper: one step taken from a not-yet-Ready state by a stimulus carrying
no session-updated event emits no audio-append and stays not Ready. -/
theorem step_noUpd (parse : String → Option AIEvent) (g : String)
    (st : Part002.St) (e : Ev) (hr : st.sessionReady = false)
    (hu : Part002.traceUpdCount parse [e] = 0) :
    appends (Part002.step parse g st e).2 = []
      ∧ (Part002.step parse g st e).1.sessionReady = false := by
  cases e with
  | twMsg d =>
    constructor
    · show appends (Part002.onTwilioMessage st d).2 = []
      exact tw_appends_of_notReady st d hr
    · show (Part002.onTwilioMessage st d).1.sessionReady = false
      rw [tw_ready st d]
      exact hr
  | twClose =>
    constructor
    · show appends (Part002.step parse g st Ev.twClose).2 = []
      simp only [Part002.step]
      split <;> simp [appends]
    · show (Part002.step parse g st Ev.twClose).1.sessionReady = false
      simp only [Part002.step]
      split <;> simpa using hr
  | twError =>
    constructor
    · show appends (Part002.step parse g st Ev.twError).2 = []
      simp only [Part002.step]
      split <;> simp [appends]
    · show (Part002.step parse g st Ev.twError).1.sessionReady = false
      simp only [Part002.step]
      split <;> simpa using hr
  | aiOpen =>
    exact ⟨rfl, hr⟩
  | aiMsg t =>
    have hmsg : Part002.msgUpdCount parse t = 0 := by
      simpa [Part002.traceUpdCount] using hu
    have hcount :
        ((Part002.splitLines t).filterMap parse).countP Part002.updP = 0 := by
      simpa [Part002.msgUpdCount] using hmsg
    show appends (match st.openaiWs with
        | none => (st, ([] : List Out))
        | some _ => Part002.onAiMessage parse g st t).2 = []
      ∧ (match st.openaiWs with
        | none => (st, ([] : List Out))
        | some _ => Part002.onAiMessage parse g st t).1.sessionReady = false
    cases st.openaiWs with
    | none => exact ⟨rfl, hr⟩
    | some s =>
      constructor
      · exact appends_runLines parse g (Part002.splitLines t) st
      · show (Part002.runLines parse g st (Part002.splitLines t)).1.sessionReady
          = false
        rw [runLines_ready_of_noUpd parse g (Part002.splitLines t) st hcount]
        exact hr
  | aiClose =>
    exact ⟨rfl, hr⟩
  | aiError =>
    exact ⟨rfl, hr⟩

/-- Helper: the per-trace session-updated count splits off its head. -/
theorem traceUpdCount_cons (parse : String → Option AIEvent) (e : Ev)
    (es : List Ev) :
    Part002.traceUpdCount parse (e :: es)
      = Part002.traceUpdCount parse [e] + Part002.traceUpdCount parse es := by
  cases e <;> simp [Part002.traceUpdCount]

/-- C1 (amended): in the session-gated variant (src/unnamed/part_002, and
identically the first variant of part_000), for every call state that is not
yet Ready and every interleaving of events in which no session-updated event
is delivered, no input_audio_buffer.append event is ever sent to the AI
socket — media frames arriving before Ready are dropped silently.  (As the
counterexample shows, src/server.js instead gates appends on the AI socket
being open, so there an append can be sent before any session-updated.) -/
theorem part002_no_append_before_updated
    (parse : String → Option AIEvent) (g : String) :
    ∀ (evs : List Ev) (st : Part002.St), st.sessionReady = false →
    Part002.traceUpdCount parse evs = 0 →
    appends (Part002.run parse g st evs).2 = [] := by
  intro evs
  induction evs with
  | nil => intro st _ _; rfl
  | cons e es ih =>
    intro st hr hu
    rw [traceUpdCount_cons] at hu
    have h1 : Part002.traceUpdCount parse [e] = 0 := by omega
    have h2 : Part002.traceUpdCount parse es = 0 := by omega
    have hs := step_noUpd parse g st e hr h1
    show appends ((Part002.step parse g st e).2
      ++ (Part002.run parse g (Part002.step parse g st e).1 es).2) = []
    rw [appends_append, hs.1, ih (Part002.step parse g st e).1 hs.2 h2]
    rfl

/-- C1 witness: a fresh part_002 call receiving start, AI-socket open and a
caller media frame — with no session-updated delivered — sends no
input_audio_buffer.append. -/
theorem part002_no_append_before_updated_witness :
    Part002.init.sessionReady = false
      ∧ Part002.traceUpdCount parseFix trC1cex = 0
      ∧ appends (Part002.run parseFix "" Part002.init trC1cex).2 = [] :=
  ⟨rfl, rfl,
    part002_no_append_before_updated parseFix "" trC1cex Part002.init rfl rfl⟩

/-- C1 counterexample: in src/server.js the same interleaving — start, AI
socket opens, one caller media frame, and NO AI-service message (hence no
session-updated observed) — already sends an input_audio_buffer.append with
the caller payload to the AI socket. -/
theorem serverjs_append_before_updated_cex :
    (ServerJs.run parseFix "" ServerJs.init trC1cex).2
      = [Out.aiSend AiEvtOut.sessionUpdate, Out.aiSend (AiEvtOut.append "AAA")]
    ∧ noAiMsg trC1cex = true :=
  ⟨rfl, rfl⟩

/-- C2 (code bug in part_002/part_000): the start branch of
`twilioWs.on('message')` calls `connectOpenAI()` unconditionally, so a call
receiving two start frames creates TWO AI-side WebSockets (the second
overwriting the `openaiWs` handle while the first is never closed) — the
claimed at-most-one-AI-socket guarantee fails. -/
theorem part002_duplicate_start_opens_second_socket :
    (Part002.run parseFix "" Part002.init trDupStart).1.socketsOpened = 2
    ∧ (Part002.run parseFix "" Part002.init trDupStart).2
        = [Out.openAiSocket, Out.openAiSocket] :=
  ⟨rfl, rfl⟩

/-- C3 (code bug in part_002/part_000/part_001): `openaiWs.on('close')` only
logs, so when the AI socket closes after start/open the telephony socket is
left open and no close is ever issued for it in the same teardown step —
only the telephony-to-AI direction of the claimed bidirectional teardown
exists in this variant (src/server.js does close the telephony socket
there). -/
theorem part002_ai_close_leaves_twilio_open :
    (Part002.run parseFix "" Part002.init trAiDrop).1.twilioRS
        = SockState.opened
    ∧ (Part002.run parseFix "" Part002.init trAiDrop).1.openaiWs
        = some SockState.closed
    ∧ (Part002.run parseFix "" Part002.init trAiDrop).2 = [Out.openAiSocket] :=
  ⟨rfl, rfl, rfl⟩

/-- C4 (code bug in part_001): its `wss.on('connection')` has no
OPENAI_API_KEY check, so with the credential absent the AI-side WebSocket is
still created (with a `Bearer undefined` header) and the telephony socket is
left open — unlike src/server.js (and part_002/part_000 first variant),
which close the telephony socket at once and never create the AI socket. -/
theorem part001_missing_key_still_connects :
    Part001.connection false
        = { aiSocketCreated := true, twilioClosed := false }
    ∧ ServerJs.connection false
        = { aiSocketCreated := false, twilioClosed := true } :=
  ⟨rfl, rfl⟩

/-- C8 (code bug in the second variant of part_000): its
`twilioWs.on('message')` calls JSON.parse outside any try/catch, so an
unparseable telephony frame makes the handler throw (uncaught, killing the
process) instead of being logged and dropped; the guarded variant part_002
by contrast drops the same frame with no output and no state change. -/
theorem part000v2_malformed_twilio_frame_throws :
    Part000v2.onTwilioMessage Part000v2.init none = Except.error ()
    ∧ Part002.onTwilioMessage Part002.init none = (Part002.init, []) :=
  ⟨rfl, rfl⟩

/-- Helper: the session.created branch emits no conversation.item.create. -/
theorem itemTexts_createdOut (ev : AIEvent) :
    itemTexts (Part002.createdOut ev) = [] := by
  unfold Part002.createdOut
  split <;> rfl

/-- Helper: the session.created branch emits no response.create. -/
theorem respCount_createdOut (ev : AIEvent) :
    respCount (Part002.createdOut ev) = 0 := by
  unfold Part002.createdOut
  split <;> rfl

/-- Helper: the delta branch emits no conversation.item.create. -/
theorem itemTexts_deltaOut (st : Part002.St) (ev : AIEvent) :
    itemTexts (Part002.deltaOut st ev) = [] := by
  unfold Part002.deltaOut
  split <;> rfl

/-- Helper: the delta branch emits no response.create. -/
theorem respCount_deltaOut (st : Part002.St) (ev : AIEvent) :
    respCount (Part002.deltaOut st ev) = 0 := by
  unfold Part002.deltaOut
  split <;> rfl

/-- Helper: the greeting branch emits one conversation.item.create carrying
the greeting exactly when the event is session-updated and the greeting is
non-empty. -/
theorem itemTexts_greetOut (g : String) (ev : AIEvent) :
    itemTexts (Part002.greetOut g ev)
      = if Part002.updP ev && gNonempty g then [g] else [] := by
  unfold Part002.greetOut Part002.updP
  cases h1 : ev.ty == "session.updated" <;>
    cases h2 : gNonempty g <;> simp [h1, h2, itemTexts]

/-- Helper: the greeting branch emits one response.create exactly when the
event is session-updated and the greeting is non-empty. -/
theorem respCount_greetOut (g : String) (ev : AIEvent) :
    respCount (Part002.greetOut g ev)
      = if Part002.updP ev && gNonempty g then 1 else 0 := by
  unfold Part002.greetOut Part002.updP
  cases h1 : ev.ty == "session.updated" <;>
    cases h2 : gNonempty g <;>
      simp [h1, h2, respCount, List.countP_cons] <;> rfl

/-- Helper: conversation.item.create texts produced by one dispatched AI
event. -/
theorem itemTexts_dispatch (g : String) (st : Part002.St) (ev : AIEvent) :
    itemTexts (Part002.dispatch g st ev).2
      = if Part002.updP ev && gNonempty g then [g] else [] := by
  show itemTexts (Part002.createdOut ev ++ Part002.greetOut g ev
    ++ Part002.deltaOut st ev) = _
  rw [itemTexts_append, itemTexts_append, itemTexts_createdOut,
    itemTexts_greetOut, itemTexts_deltaOut]
  simp

/-- Helper: response.create count produced by one dispatched AI event. -/
theorem respCount_dispatch (g : String) (st : Part002.St) (ev : AIEvent) :
    respCount (Part002.dispatch g st ev).2
      = if Part002.updP ev && gNonempty g then 1 else 0 := by
  show respCount (Part002.createdOut ev ++ Part002.greetOut g ev
    ++ Part002.deltaOut st ev) = _
  rw [respCount_append, respCount_append, respCount_createdOut,
    respCount_greetOut, respCount_deltaOut]
  simp

/-- Helper: the stop-frame teardown emits no conversation.item.create. -/
theorem itemTexts_closeBoth (st : Part002.St) :
    itemTexts (Part002.closeBoth st).2 = [] := by
  unfold Part002.closeBoth
  split <;> split <;> rfl

/-- Helper: the stop-frame teardown emits no response.create. -/
theorem respCount_closeBoth (st : Part002.St) :
    respCount (Part002.closeBoth st).2 = 0 := by
  unfold Part002.closeBoth
  split <;> split <;> rfl

/-- Helper: the telephony message handler emits no
conversation.item.create. -/
theorem itemTexts_onTwilioMessage (st : Part002.St) (d : Option TwilioData) :
    itemTexts (Part002.onTwilioMessage st d).2 = [] := by
  cases d with
  | none => rfl
  | some data =>
    unfold Part002.onTwilioMessage
    repeat' split
    all_goals first
      | rfl
      | exact itemTexts_closeBoth st

/-- Helper: the telephony message handler emits no response.create. -/
theorem respCount_onTwilioMessage (st : Part002.St) (d : Option TwilioData) :
    respCount (Part002.onTwilioMessage st d).2 = 0 := by
  cases d with
  | none => rfl
  | some data =>
    unfold Part002.onTwilioMessage
    repeat' split
    all_goals first
      | rfl
      | exact respCount_closeBoth st

/-- Helper: greeting outputs of the per-line AI message loop: one
conversation.item.create carrying the greeting and one response.create per
parsed session-updated line (none when the greeting is empty). -/
theorem runLines_gOuts (parse : String → Option AIEvent) (g : String) :
    ∀ (ls : List String) (st : Part002.St),
    itemTexts (Part002.runLines parse g st ls).2
      = (if gNonempty g then
          List.replicate ((ls.filterMap parse).countP Part002.updP) g
        else [])
    ∧ respCount (Part002.runLines parse g st ls).2
      = (if gNonempty g then (ls.filterMap parse).countP Part002.updP
        else 0) := by
  intro ls
  induction ls with
  | nil =>
    intro st
    constructor <;> cases hg : gNonempty g <;>
      simp [hg, Part002.runLines, itemTexts, respCount]
  | cons l ls ih =>
    intro st
    unfold Part002.runLines
    cases hp : parse l with
    | none =>
      rw [List.filterMap_cons, hp]
      exact ih st
    | some ev =>
      rw [List.filterMap_cons, hp]
      simp only []
      constructor
      · rw [itemTexts_append, itemTexts_dispatch,
          (ih (Part002.dispatch g st ev).1).1, List.countP_cons]
        cases hg : gNonempty g <;> cases hu : Part002.updP ev <;>
          simp [hg, hu, List.replicate_succ]
      · rw [respCount_append, respCount_dispatch,
          (ih (Part002.dispatch g st ev).1).2, List.countP_cons]
        cases hg : gNonempty g <;> cases hu : Part002.updP ev <;>
          simp [hg, hu] <;> omega

/-- Helper: greeting outputs of one realizable step: one item-create
carrying the greeting and one response.create per session-updated event the
stimulus delivers (none when the greeting is empty). -/
theorem step_gOuts (parse : String → Option AIEvent) (g : String)
    (st : Part002.St) (e : Ev) (hok : Part002.evOk st e = true) :
    itemTexts (Part002.step parse g st e).2
      = (if gNonempty g then
          List.replicate (Part002.traceUpdCount parse [e]) g
        else [])
    ∧ respCount (Part002.step parse g st e).2
      = (if gNonempty g then Part002.traceUpdCount parse [e] else 0) := by
  cases e with
  | twMsg d =>
    constructor
    · show itemTexts (Part002.onTwilioMessage st d).2 = _
      rw [itemTexts_onTwilioMessage]
      cases hg : gNonempty g <;> simp [hg, Part002.traceUpdCount]
    · show respCount (Part002.onTwilioMessage st d).2 = _
      rw [respCount_onTwilioMessage]
      cases hg : gNonempty g <;> simp [hg, Part002.traceUpdCount]
  | twClose =>
    constructor <;>
      (simp only [Part002.step]
       split <;> cases hg : gNonempty g <;>
        simp [hg, itemTexts, respCount, Part002.traceUpdCount] <;> rfl)
  | twError =>
    constructor <;>
      (simp only [Part002.step]
       split <;> cases hg : gNonempty g <;>
        simp [hg, itemTexts, respCount, Part002.traceUpdCount] <;> rfl)
  | aiOpen =>
    constructor <;>
      (simp only [Part002.step]
       cases hg : gNonempty g <;>
        simp [hg, itemTexts, respCount, Part002.traceUpdCount])
  | aiMsg t =>
    have hsome : st.openaiWs.isSome = true := hok
    cases ho : st.openaiWs with
    | none => rw [ho] at hsome; simp at hsome
    | some s =>
      constructor
      · simp only [Part002.step, ho, Part002.onAiMessage]
        rw [(runLines_gOuts parse g (Part002.splitLines t) st).1]
        cases hg : gNonempty g <;>
          simp [hg, Part002.traceUpdCount, Part002.msgUpdCount]
      · simp only [Part002.step, ho, Part002.onAiMessage]
        rw [(runLines_gOuts parse g (Part002.splitLines t) st).2]
        cases hg : gNonempty g <;>
          simp [hg, Part002.traceUpdCount, Part002.msgUpdCount]
  | aiClose =>
    constructor <;>
      (simp only [Part002.step]
       cases hg : gNonempty g <;>
        simp [hg, itemTexts, respCount, Part002.traceUpdCount])
  | aiError =>
    constructor <;>
      (cases hg : gNonempty g <;>
        simp [hg, itemTexts, respCount, Part002.traceUpdCount, Part002.step])

/-- C5 (amended): in the session-gated variant (part_002/part_000 first
variant), for every realizable interleaving, the call emits exactly one
conversation.item.create — carrying exactly the greeting text — and exactly
one response.create per session-updated event observed (so exactly one of
each in the standard handshake, where session-updated arrives once), and an
empty or all-whitespace greeting emits neither; applying the same statement
to any trace prefix with no session-updated shows nothing is emitted before
the Ready transition.  (As the counterexample shows, src/server.js instead
sends both events when the AI socket opens, before any session-updated.) -/
theorem part002_greeting_per_updated
    (parse : String → Option AIEvent) (g : String) :
    ∀ (evs : List Ev) (st : Part002.St),
    Part002.valid parse g st evs = true →
    itemTexts (Part002.run parse g st evs).2
      = (if gNonempty g then
          List.replicate (Part002.traceUpdCount parse evs) g
        else [])
    ∧ respCount (Part002.run parse g st evs).2
      = (if gNonempty g then Part002.traceUpdCount parse evs else 0) := by
  intro evs
  induction evs with
  | nil =>
    intro st _
    constructor <;> cases hg : gNonempty g <;>
      simp [hg, Part002.run, itemTexts, respCount, Part002.traceUpdCount]
  | cons e es ih =>
    intro st hv
    have hv2 : (Part002.evOk st e
        && Part002.valid parse g (Part002.step parse g st e).1 es) = true := hv
    rw [Bool.and_eq_true] at hv2
    rcases hv2 with ⟨hok, hvrest⟩
    have hstep := step_gOuts parse g st e hok
    have hrest := ih (Part002.step parse g st e).1 hvrest
    rw [traceUpdCount_cons]
    constructor
    · show itemTexts ((Part002.step parse g st e).2
        ++ (Part002.run parse g (Part002.step parse g st e).1 es).2) = _
      rw [itemTexts_append, hstep.1, hrest.1]
      cases hg : gNonempty g
      · simp [hg]
      · simp only [hg, eq_self_iff_true, if_true]
        rw [List.replicate_add]
    · show respCount ((Part002.step parse g st e).2
        ++ (Part002.run parse g (Part002.step parse g st e).1 es).2) = _
      rw [respCount_append, hstep.2, hrest.2]
      cases hg : gNonempty g <;> simp [hg]

/-- C5 witness: the standard handshake (start, AI open, one AI message with
one session-updated) with greeting "Hi" — the validity hypothesis holds and
the call emits the greeting pair exactly once. -/
theorem part002_greeting_per_updated_witness :
    Part002.valid parseFix "Hi" Part002.init trHandshake = true
    ∧ (itemTexts (Part002.run parseFix "Hi" Part002.init trHandshake).2
        = (if gNonempty "Hi" then
            List.replicate (Part002.traceUpdCount parseFix trHandshake) "Hi"
          else [])
      ∧ respCount (Part002.run parseFix "Hi" Part002.init trHandshake).2
        = (if gNonempty "Hi" then Part002.traceUpdCount parseFix trHandshake
          else 0)) :=
  ⟨rfl, part002_greeting_per_updated parseFix "Hi" trHandshake Part002.init rfl⟩

/-- C5 counterexample: in src/server.js a call with non-empty greeting sends
conversation.item.create and response.create already on the AI socket's
open event — the trace contains no AI-service message, so no session-updated
was observed and Ready in the claimed sense was never reached. -/
theorem serverjs_greeting_before_updated_cex :
    (ServerJs.run parseFix "Hallo" ServerJs.init [Ev.aiOpen]).2
      = [Out.aiSend AiEvtOut.sessionUpdate,
         Out.aiSend (AiEvtOut.itemCreate "Hallo"),
         Out.aiSend AiEvtOut.responseCreate]
    ∧ noAiMsg [Ev.aiOpen] = true :=
  ⟨rfl, rfl⟩

/-- C6: in part_002, an AI audio-delta event (either accepted type spelling)
with non-empty payload is forwarded — when the call identifier is known (and
the telephony socket open, which receiving presupposes) the telephony socket
receives exactly the one frame carrying that identifier and that exact
payload, with no state change; when the identifier is not yet known the
delta is dropped and nothing at all is sent. -/
theorem part002_delta_forwarding (g : String) (st : Part002.St)
    (ev : AIEvent)
    (hty : ev.ty = "response.audio.delta"
      ∨ ev.ty = "response.output_audio.delta")
    (hdelta : jsTruthy ev.delta = true) :
    (jsTruthy st.streamSid = true → st.twilioRS = SockState.opened →
      Part002.dispatch g st ev
        = (st, [Out.twilioSend (st.streamSid.getD "") (ev.delta.getD "")]))
    ∧ (jsTruthy st.streamSid = false →
      Part002.dispatch g st ev = (st, [])) := by
  have hc : (ev.ty == "session.created") = false := by
    rcases hty with h | h <;> rw [h] <;> rfl
  have hu2 : (ev.ty == "session.updated") = false := by
    rcases hty with h | h <;> rw [h] <;> rfl
  have hd : (ev.ty == "response.audio.delta"
      || ev.ty == "response.output_audio.delta") = true := by
    rcases hty with h | h <;> rw [h] <;> rfl
  constructor
  · intro hs ht
    unfold Part002.dispatch Part002.updState Part002.createdOut
      Part002.greetOut Part002.deltaOut
    simp [hc, hu2, hd, hdelta, hs, ht]
    rfl
  · intro hs
    unfold Part002.dispatch Part002.updState Part002.createdOut
      Part002.greetOut Part002.deltaOut
    simp [hc, hu2, hd, hdelta, hs]

/-- C6 witness: a delta event with payload ZZZZ dispatched in a Ready state
that knows streamSid CA123 yields exactly the one media frame. -/
theorem part002_delta_forwarding_witness :
    Part002.dispatch "" stReady evDeltaZ
      = (stReady,
         [Out.twilioSend (stReady.streamSid.getD "")
           (evDeltaZ.delta.getD "")]) :=
  (part002_delta_forwarding "" stReady evDeltaZ (Or.inl rfl) rfl).1 rfl rfl

/-- Helper: unfolding one step of `run` on a cons trace. -/
theorem run_cons (parse : String → Option AIEvent) (g : String)
    (st : Part002.St) (e : Ev) (es : List Ev) :
    Part002.run parse g st (e :: es)
      = ((Part002.run parse g (Part002.step parse g st e).1 es).1,
         (Part002.step parse g st e).2
           ++ (Part002.run parse g (Part002.step parse g st e).1 es).2) :=
  rfl

/-- C7: in part_002, once a call is Ready (session-updated observed, AI
socket open), any sequence of inbound media frames is forwarded as exactly
one input_audio_buffer.append per frame, in the same order, with the exact
payloads, and the call state is unchanged. -/
theorem part002_media_forwarding_in_order
    (parse : String → Option AIEvent) (g : String) (st : Part002.St)
    (ps : List String)
    (hready : st.sessionReady = true)
    (hopen : sockIsOpen st.openaiWs = true)
    (hne : ps.all (fun p => p != "") = true) :
    Part002.run parse g st (ps.map (fun p => Ev.twMsg (some (mediaFrame p))))
      = (st, ps.map (fun p => Out.aiSend (AiEvtOut.append p))) := by
  revert hne
  induction ps with
  | nil => intro _; rfl
  | cons p ps ih =>
    intro hne
    rw [List.all_cons, Bool.and_eq_true] at hne
    obtain ⟨hp, hps⟩ := hne
    have hstep : Part002.step parse g st (Ev.twMsg (some (mediaFrame p)))
        = (st, [Out.aiSend (AiEvtOut.append p)]) := by
      show Part002.onTwilioMessage st (some (mediaFrame p))
        = (st, [Out.aiSend (AiEvtOut.append p)])
      unfold Part002.onTwilioMessage mediaFrame
      simp [hready, hopen, jsTruthy, hp]
    rw [List.map_cons, run_cons, hstep]
    dsimp only
    rw [ih hps]
    rfl

/-- C7 witness: a Ready call receiving media frames AAA, BBB, CCC sends
exactly the three input_audio_buffer.append events, in that order, with
those exact payloads, leaving the call state untouched. -/
theorem part002_media_forwarding_in_order_witness :
    Part002.run parseFix "" stReady
      (["AAA", "BBB", "CCC"].map (fun p => Ev.twMsg (some (mediaFrame p))))
      = (stReady,
         ["AAA", "BBB", "CCC"].map (fun p => Out.aiSend (AiEvtOut.append p))) :=
  part002_media_forwarding_in_order parseFix "" stReady ["AAA", "BBB", "CCC"]
    rfl rfl (by decide)

/-- Helper: the server.js per-line loop equals parsing each line
independently and concatenating the per-event dispatches. -/
theorem serverjs_runLines_bind (parse : String → Option AIEvent)
    (st : ServerJs.St) :
    ∀ (ls : List String),
    ServerJs.runLines parse st ls
      = (ls.filterMap parse).flatMap (ServerJs.dispatch st) := by
  intro ls
  induction ls with
  | nil => rfl
  | cons l ls ih =>
    unfold ServerJs.runLines
    cases hp : parse l with
    | none =>
      rw [List.filterMap_cons, hp]
      exact ih
    | some ev =>
      rw [List.filterMap_cons, hp]
      simp only [List.flatMap_cons]
      rw [ih]

/-- C9 (amended): in src/server.js (and likewise part_002/part_000 first
variant), a physical AI-service message is split on newlines, whitespace-only
lines are skipped, and every remaining line is individually parsed and
dispatched in order — a line whose parse fails contributes nothing and does
not prevent dispatch of the other lines (the handler equals filterMap of the
parse over the split lines, followed by per-event dispatch).  (As the
counterexample shows, part_001 instead parses the whole physical message as
one JSON event, dropping a batched message entirely.) -/
theorem serverjs_batch_line_dispatch (parse : String → Option AIEvent)
    (st : ServerJs.St) (text : String) :
    ServerJs.onAiMessage parse st text
      = ((ServerJs.splitLines text).filterMap parse).flatMap
          (ServerJs.dispatch st) :=
  serverjs_runLines_bind parse st (ServerJs.splitLines text)

/-- C9 counterexample: a physical message batching two newline-delimited
audio-delta events is dropped whole by part_001 (its single JSON.parse of
the concatenation fails), although each line parses individually — server.js
on the same input forwards both deltas. -/
theorem part001_batch_dropped_cex :
    Part001.onAiMessage parseFix stP1 batchAB = (stP1, [])
    ∧ parseFix batchAB = none
    ∧ ((ServerJs.splitLines batchAB).filterMap parseFix).length = 2
    ∧ ServerJs.onAiMessage parseFix stSrvReady batchAB
        = [Out.twilioSend "CA123" "AAAA", Out.twilioSend "CA123" "BBBB"] :=
  ⟨rfl, rfl, rfl, rfl⟩

/-- C10: in both part_002 and server.js, an inbound media frame whose
envelope lacks the media object or the media.payload field produces no
input_audio_buffer.append and leaves the whole per-call state (identifier,
readiness flag, sockets) unchanged, with nothing sent to either peer. -/
theorem media_without_payload_ignored
    (d : TwilioData) (st : Part002.St) (stA : ServerJs.St)
    (hev : d.event = "media")
    (hm : d.media = none ∨ ∃ m, d.media = some m ∧ m.payload = none) :
    Part002.onTwilioMessage st (some d) = (st, [])
    ∧ ServerJs.onTwilioMessage stA (some d) = (stA, []) := by
  have e1 : (d.event == "start") = false := by rw [hev]; rfl
  have e3 : (d.event == "stop") = false := by rw [hev]; rfl
  constructor
  · unfold Part002.onTwilioMessage
    rcases hm with hm | ⟨m, hm, hp⟩
    · simp only [e1, e3, hm]
      split <;> simp_all
    · simp only [e1, e3, hm, hp]
      split <;> simp_all [jsTruthy]
  · unfold ServerJs.onTwilioMessage
    rcases hm with hm | ⟨m, hm, hp⟩
    · simp only [e1, e3, hm]
      split <;> simp_all
    · simp only [e1, e3, hm, hp]
      split <;> simp_all [jsTruthy]

/-- C10 witness: a media frame with no media object, delivered to a Ready
part_002 call and to a ready server.js call, yields no append and no state
change in either. -/
theorem media_without_payload_ignored_witness :
    Part002.onTwilioMessage stReady (some mediaNoPayload) = (stReady, [])
    ∧ ServerJs.onTwilioMessage stSrvReady (some mediaNoPayload)
        = (stSrvReady, []) :=
  media_without_payload_ignored mediaNoPayload stReady stSrvReady rfl
    (Or.inl rfl)
